import Mathlib

/-
Verification development for the Torsel module (src/torsel/torsel.py):
a pool manager for Tor instances driven by a worker/retry engine.

Shallow embedding conventions:
- External effects (creating an instance, building a Selenium session,
  invoking the user function, quitting the session, calling the IP-rotation
  routine, sending the NEWNYM signal, queue.task_done) are recorded as an
  event trace (List Event).
- The outside world (whether the user function raises on a given attempt,
  whether a TCP port is open, whether control-channel authentication raises)
  is an environment of boolean-valued functions (Env).
- Python exceptions are modelled as a Bool "raised" flag (for functions whose
  exceptions the caller catches) or an Option Exc (for exceptions that escape
  the worker loop).
- Machine integers do not overflow in the ranges used (ports, indices), so
  Nat is used directly; Python `%` on nonnegative ints is Nat.mod, and the
  ZeroDivisionError of `x % 0` is modelled explicitly as Exc.zeroDivision.
-/

namespace Torsel

/-- Pool configuration: the fields of Torsel.__init__ (torsel.py lines 22-43)
that the control logic reads. Default values: total_instances=10,
max_threads=5, tor_base_port=9050, tor_control_base_port=9151. -/
structure Config where
  total_instances : Nat
  max_threads : Nat
  tor_base_port : Nat
  tor_control_base_port : Nat
deriving DecidableEq

/-- The default construction Torsel() (torsel.py line 22). -/
def defaultConfig : Config :=
  { total_instances := 10, max_threads := 5
    tor_base_port := 9050, tor_control_base_port := 9151 }

/-- SOCKS port of instance i, as computed in create_tor_instance
(line 88: SocksPort tor_base_port + instance_num * 10) and in
configure_selenium_with_tor (line 113). -/
def socksPort (cfg : Config) (i : Nat) : Nat :=
  cfg.tor_base_port + i * 10

/-- Control port of instance i, as computed in create_tor_instance
(line 89: ControlPort tor_control_base_port + instance_num * 10) and in
rotate_tor_ip (line 128). -/
def controlPort (cfg : Config) (i : Nat) : Nat :=
  cfg.tor_control_base_port + i * 10

/-- Python range(start, stop, step) for a positive step: the ascending list
start, start+step, ... below stop. -/
def pyRange (start stop step : Nat) : List Nat :=
  (List.range ((stop - start + step - 1) / step)).map (fun k => start + k * step)

/-- The port loop header of clean_up (line 64):
range(tor_base_port, tor_base_port + total_instances * 10, 10). -/
def cleanUpPorts (cfg : Config) : List Nat :=
  pyRange cfg.tor_base_port (cfg.tor_base_port + cfg.total_instances * 10) 10

/-- The ports clean_up forcibly frees (lines 64-68), given the observed
is_port_open predicate: for each loop port, fuser -k is run on the port when
it is open and on port+101 when that is open. -/
def clean_up (cfg : Config) (isOpen : Nat → Bool) : List Nat :=
  (cleanUpPorts cfg).flatMap (fun port =>
    (if isOpen port then [port] else [])
      ++ (if isOpen (port + 101) then [port + 101] else []))

/-- Observable events of one worker, in program order. -/
inductive Event where
  | createInstance (i : Nat)
  | buildSession (i : Nat)
  | userCall (a : Nat) (i : Nat)
  | quitSession (i : Nat)
  | rotateCall (i : Nat)
  | newIdentity (i : Nat)
  | taskDone
deriving DecidableEq

/-- Environment: the outside world's responses.
userFails a i n: does user_function raise on attempt n of action a against
instance i. isOpen p: result of is_port_open(p) (line 138). authFails p:
does the stem Controller authenticate/signal call on control port p raise. -/
structure Env where
  userFails : Nat → Nat → Nat → Bool
  isOpen : Nat → Bool
  authFails : Nat → Bool

/-- execute_function (lines 152-163): builds the driver, calls the user
function, and quits the driver. There is no try/finally: when user_function
raises, driver.quit() on line 163 is never reached. Returns the event trace
and whether an exception propagated to the caller. -/
def execute_function (env : Env) (a i attempt : Nat) : List Event × Bool :=
  if env.userFails a i attempt then
    ([Event.buildSession i, Event.userCall a i], true)
  else
    ([Event.buildSession i, Event.userCall a i, Event.quitSession i], false)

/-- rotate_tor_ip (lines 121-136): if the control port is open, authenticate
and send NEWNYM (an authentication failure raises out of the function);
otherwise log and return. The rotateCall event marks the invocation itself. -/
def rotate_tor_ip (cfg : Config) (env : Env) (i : Nat) : List Event × Bool :=
  if env.isOpen (controlPort cfg i) then
    if env.authFails (controlPort cfg i) then
      ([Event.rotateCall i], true)
    else
      ([Event.rotateCall i, Event.newIdentity i], false)
  else
    ([Event.rotateCall i], false)

/-- The retry loop of thread_manager (lines 182-188), started at a given
attempt number with the given number of iterations left. Each iteration
tries execute_function and breaks on success; on an exception it calls
rotate_tor_ip and continues. An exception raised by rotate_tor_ip itself is
not caught and escapes (returned flag true). -/
def retryFrom (cfg : Config) (env : Env) (a i attempt fuel : Nat) :
    List Event × Bool :=
  match fuel with
  | 0 => ([], false)
  | Nat.succ fuel1 =>
    let r := execute_function env a i attempt
    if r.2 then
      let rot := rotate_tor_ip cfg env i
      if rot.2 then
        (r.1 ++ rot.1, true)
      else
        let rest := retryFrom cfg env a i (attempt + 1) fuel1
        (r.1 ++ rot.1 ++ rest.1, rest.2)
    else
      (r.1, false)

/-- The full retry loop: for attempt in range(5) (line 182). -/
def retryLoop (cfg : Config) (env : Env) (a i : Nat) : List Event × Bool :=
  retryFrom cfg env a i 0 5

/-- Exceptions that can escape one loop iteration of thread_manager. -/
inductive Exc where
  | zeroDivision
  | controlError
deriving DecidableEq

/-- One dequeued action's processing in thread_manager (lines 176-189):
instance_num = action_num % total_instances (ZeroDivisionError when
total_instances = 0), lazy instance creation when action_num falls below
total_instances, the 5-attempt retry loop, then queue.task_done(). An
exception escaping the retry loop skips task_done and aborts the worker. -/
def processAction (cfg : Config) (env : Env) (a : Nat) :
    List Event × Option Exc :=
  if cfg.total_instances = 0 then
    ([], some Exc.zeroDivision)
  else
    let i := a % cfg.total_instances
    let createEv :=
      if a < cfg.total_instances then [Event.createInstance i] else []
    let r := retryLoop cfg env a i
    if r.2 then
      (createEv ++ r.1, some Exc.controlError)
    else
      (createEv ++ r.1 ++ [Event.taskDone], none)

/-- The worker loop of thread_manager (lines 165-195), single-worker
semantics: process the queue front to back; stop is check_stop_func, applied
to the number of polls made so far. When it returns true the worker drains
the remaining queue, marking each item done without executing it, and exits.
Returns (event trace, remaining queue, escaped exception). -/
def thread_manager (cfg : Config) (env : Env) (stop : Option (Nat → Bool)) :
    List Nat → Nat → List Event × List Nat × Option Exc
  | [], _ => ([], [], none)
  | a :: rest, polls =>
    let r := processAction cfg env a
    match r.2 with
    | some e => (r.1, rest, some e)
    | none =>
      match stop with
      | some f =>
        if f polls then
          (r.1 ++ rest.map (fun _ => Event.taskDone), [], none)
        else
          let t := thread_manager cfg env stop rest (polls + 1)
          (r.1 ++ t.1, t.2)
      | none =>
        let t := thread_manager cfg env stop rest (polls + 1)
        (r.1 ++ t.1, t.2)

/-- Phase of one worker thread inside the loop head of thread_manager
(lines 174-175). loopHead: about to evaluate queue.empty(); getting: the
emptiness check passed, about to call the blocking queue.get(); working:
holds a dequeued action (the loop body, which does not touch the queue
contents when no stop function is supplied); done: exited the loop. -/
inductive WPhase where
  | loopHead
  | getting
  | working (a : Nat)
  | done
deriving DecidableEq

/-- Shared state of the pool: the queue contents and each worker's phase. -/
structure PoolState where
  queue : List Nat
  workers : List WPhase
deriving DecidableEq

/-- One small step of a single worker against the shared queue. queue.get()
with the default block=True never returns on an empty queue (no producer
exists after run seeds the queue), so a worker in phase getting with an
empty queue has no step. A finished worker has no step. -/
def stepWorker : WPhase → List Nat → Option (WPhase × List Nat)
  | WPhase.loopHead, q =>
    some (if q.isEmpty then WPhase.done else WPhase.getting, q)
  | WPhase.getting, [] => none
  | WPhase.getting, a :: rest => some (WPhase.working a, rest)
  | WPhase.working _, q => some (WPhase.loopHead, q)
  | WPhase.done, _ => none

/-- Run an interleaving: each schedule entry names the worker to step next;
entries naming an absent or stuck worker are skipped (a stuck worker stays
stuck). -/
def runSched : PoolState → List Nat → PoolState
  | s, [] => s
  | s, w :: ws =>
    match s.workers[w]? with
    | none => runSched s ws
    | some ph =>
      match stepWorker ph s.queue with
      | none => runSched s ws
      | some r => runSched { queue := r.2, workers := s.workers.set w r.1 } ws

/-- Top-level events of run (lines 197-219), in program order. -/
inductive RunEvent where
  | cleanup
  | seed (a : Nat)
  | spawn (w : Nat)
  | joined
deriving DecidableEq

/-- The queue seeding loop of run (lines 209-210):
for i in range(num_actions): queue.put(i). -/
def seedQueue (n : Nat) : List Nat := pyRange 0 n 1

/-- run (lines 197-219) as its sequential trace: clean_up first, then the
seeding loop, then min(num_actions, max_threads) thread starts (line 213),
then the join over all started threads. -/
def run (cfg : Config) (n : Nat) : List RunEvent :=
  [RunEvent.cleanup]
    ++ (seedQueue n).map RunEvent.seed
    ++ (List.range (min n cfg.max_threads)).map RunEvent.spawn
    ++ [RunEvent.joined]

/-- Event classifiers used to count occurrences in a trace. -/
def isUser : Event → Bool
  | Event.userCall _ _ => true
  | _ => false

def isRotate : Event → Bool
  | Event.rotateCall _ => true
  | _ => false

def isQuit : Event → Bool
  | Event.quitSession _ => true
  | _ => false

def isBuild : Event → Bool
  | Event.buildSession _ => true
  | _ => false

def isDone : Event → Bool
  | Event.taskDone => true
  | _ => false

def isCreate (i : Nat) : Event → Bool
  | Event.createInstance j => j == i
  | _ => false

/-- Does a userCall event respect the round-robin assignment
instance = action % total_instances (line 176)? Non-userCall events pass. -/
def assignedOk (cfg : Config) : Event → Bool
  | Event.userCall a i => i == a % cfg.total_instances
  | _ => true

def isSpawn : RunEvent → Bool
  | RunEvent.spawn _ => true
  | _ => false

/-- Extract the seeded action index from a seed event. -/
def seedIdx : RunEvent → Option Nat
  | RunEvent.seed a => some a
  | _ => none

/-- Environment in which the user function raises on every invocation, the
control channel is reachable, and authentication succeeds. -/
def envAllFail : Env :=
  { userFails := fun _ _ _ => true
    isOpen := fun _ => true
    authFails := fun _ => false }

/-- Environment in which every invocation of the user function succeeds. -/
def envOk : Env :=
  { userFails := fun _ _ _ => false
    isOpen := fun _ => true
    authFails := fun _ => false }

/-- Environment in which the user function always raises and the control
channel raises an authentication error on every rotation attempt. -/
def envAuthBroken : Env :=
  { userFails := fun _ _ _ => true
    isOpen := fun _ => true
    authFails := fun _ => true }

/-- A configuration whose control base port is not socks base + 101, so the
clean_up port arithmetic and the create_tor_instance port arithmetic
disagree on control ports. -/
def cfgShiftedControl : Config :=
  { total_instances := 1, max_threads := 5
    tor_base_port := 9050, tor_control_base_port := 9000 }

/-- A configuration whose control base port is socks base + 10, so instance
1's SOCKS port collides with instance 0's control port. -/
def cfgCollide : Config :=
  { total_instances := 2, max_threads := 5
    tor_base_port := 9050, tor_control_base_port := 9060 }

/-- A configuration with zero instances (total_instances = 0). -/
def cfgZero : Config :=
  { total_instances := 0, max_threads := 5
    tor_base_port := 9050, tor_control_base_port := 9151 }

/-- Shape invariant of the events emitted by the retry loop for action a on
instance i: only session, user-call and rotation events for that very action
and instance, never a createInstance or taskDone event. -/
def shapeOk (a i : Nat) : Event → Bool
  | Event.createInstance _ => false
  | Event.taskDone => false
  | Event.buildSession j => j == i
  | Event.userCall b j => b == a && j == i
  | Event.quitSession j => j == i
  | Event.rotateCall j => j == i
  | Event.newIdentity j => j == i

lemma retryFrom_shapes (cfg : Config) (env : Env) (a i : Nat) :
    ∀ fuel attempt,
      ((retryFrom cfg env a i attempt fuel).1).all (shapeOk a i) = true := by
  intro fuel
  induction fuel with
  | zero => intro attempt; simp [retryFrom]
  | succ m ih =>
    intro attempt
    cases hu : env.userFails a i attempt <;>
      cases ho : env.isOpen (controlPort cfg i) <;>
        cases ha : env.authFails (controlPort cfg i) <;>
          simp [retryFrom, execute_function, rotate_tor_ip, hu, ho, ha,
            shapeOk, ih]

lemma retryFrom_no_raise (cfg : Config) (env : Env) (a i : Nat)
    (hAuth : ∀ p, env.authFails p = false) :
    ∀ fuel attempt, (retryFrom cfg env a i attempt fuel).2 = false := by
  intro fuel
  induction fuel with
  | zero => intro attempt; simp [retryFrom]
  | succ m ih =>
    intro attempt
    cases hu : env.userFails a i attempt <;>
      cases ho : env.isOpen (controlPort cfg i) <;>
        simp [retryFrom, execute_function, rotate_tor_ip, hu, ho, hAuth, ih]

lemma retryFrom_countP_isCreate (cfg : Config) (env : Env) (a i j fuel attempt : Nat) :
    ((retryFrom cfg env a i attempt fuel).1).countP (isCreate j) = 0 := by
  rw [List.countP_eq_zero]
  intro e he
  have h := List.all_eq_true.mp (retryFrom_shapes cfg env a i fuel attempt) e he
  cases e <;> simp_all [shapeOk, isCreate]

lemma retryFrom_countP_isDone (cfg : Config) (env : Env) (a i fuel attempt : Nat) :
    ((retryFrom cfg env a i attempt fuel).1).countP isDone = 0 := by
  rw [List.countP_eq_zero]
  intro e he
  have h := List.all_eq_true.mp (retryFrom_shapes cfg env a i fuel attempt) e he
  cases e <;> simp_all [shapeOk, isDone]

lemma retryFrom_all_assignedOk (cfg : Config) (env : Env) (a fuel attempt : Nat) :
    ((retryFrom cfg env a (a % cfg.total_instances) attempt fuel).1).all
      (assignedOk cfg) = true := by
  rw [List.all_eq_true]
  intro e he
  have h := List.all_eq_true.mp
    (retryFrom_shapes cfg env a (a % cfg.total_instances) fuel attempt) e he
  cases e <;> simp_all [shapeOk, assignedOk]

lemma processAction_exc_none (cfg : Config) (env : Env) (a : Nat)
    (hT : cfg.total_instances ≠ 0) (hAuth : ∀ p, env.authFails p = false) :
    (processAction cfg env a).2 = none := by
  have h5 := retryFrom_no_raise cfg env a (a % cfg.total_instances) hAuth 5 0
  unfold processAction retryLoop
  simp [hT, h5]

lemma processAction_all_assignedOk (cfg : Config) (env : Env) (a : Nat)
    (hT : cfg.total_instances ≠ 0) :
    ((processAction cfg env a).1).all (assignedOk cfg) = true := by
  have hr := retryFrom_all_assignedOk cfg env a 5 0
  unfold processAction retryLoop
  simp only [hT, if_false, ite_false, if_neg]
  split <;> split <;> simp_all [assignedOk]

lemma processAction_countP_isCreate (cfg : Config) (env : Env) (a i : Nat)
    (hT : cfg.total_instances ≠ 0) :
    ((processAction cfg env a).1).countP (isCreate i)
      = if a = i ∧ a < cfg.total_instances then 1 else 0 := by
  have hr := retryFrom_countP_isCreate cfg env a (a % cfg.total_instances) i 5 0
  by_cases hlt : a < cfg.total_instances
  · have hmod : a % cfg.total_instances = a := Nat.mod_eq_of_lt hlt
    rw [hmod] at hr
    cases hflag : (retryFrom cfg env a a 0 5).2 <;>
      simp [processAction, retryLoop, hT, hlt, hflag, hr, hmod,
        List.countP_append, List.countP_cons, isCreate, beq_iff_eq]
  · cases hflag : (retryFrom cfg env a (a % cfg.total_instances) 0 5).2 <;>
      simp [processAction, retryLoop, hT, hlt, hflag, hr,
        List.countP_append, List.countP_cons, isCreate]

lemma processAction_countP_isDone (cfg : Config) (env : Env) (a : Nat)
    (hT : cfg.total_instances ≠ 0) (hAuth : ∀ p, env.authFails p = false) :
    ((processAction cfg env a).1).countP isDone = 1 := by
  have h5 := retryFrom_no_raise cfg env a (a % cfg.total_instances) hAuth 5 0
  have hz := retryFrom_countP_isDone cfg env a (a % cfg.total_instances) 5 0
  by_cases hlt : a < cfg.total_instances <;>
    simp [processAction, retryLoop, hT, hlt, h5, hz,
      List.countP_append, List.countP_cons, isDone]

lemma thread_manager_none_trace (cfg : Config) (env : Env)
    (hT : cfg.total_instances ≠ 0) (hAuth : ∀ p, env.authFails p = false) :
    ∀ q polls, (thread_manager cfg env none q polls).1
      = q.flatMap (fun a => (processAction cfg env a).1) := by
  intro q
  induction q with
  | nil => intro polls; simp [thread_manager]
  | cons a rest ih =>
    intro polls
    have hnone := processAction_exc_none cfg env a hT hAuth
    simp [thread_manager, hnone, ih]

lemma flatMap_countP {α β : Type} (l : List α) (g : α → List β) (p : β → Bool) :
    (l.flatMap g).countP p = (l.map (fun a => (g a).countP p)).sum := by
  induction l with
  | nil => rfl
  | cons a rest ih => simp [List.countP_append, ih]

lemma flatMap_all {α β : Type} (l : List α) (g : α → List β) (p : β → Bool)
    (h : ∀ a ∈ l, (g a).all p = true) : (l.flatMap g).all p = true := by
  induction l with
  | nil => rfl
  | cons a rest ih =>
    simp only [List.flatMap_cons, List.all_append, Bool.and_eq_true]
    constructor
    · exact h a (List.mem_cons_self a rest)
    · exact ih (fun b hb => h b (List.mem_cons_of_mem a hb))

lemma sum_indicator_range (T i : Nat) :
    ∀ N, ((List.range N).map (fun a => if a = i ∧ a < T then 1 else 0)).sum
      = if i < T ∧ i < N then 1 else 0 := by
  intro N
  induction N with
  | zero => simp
  | succ M ih =>
    rw [List.range_succ, List.map_append, List.sum_append, ih]
    simp only [List.map_cons, List.map_nil, List.sum_cons, List.sum_nil]
    split_ifs <;> omega

lemma map_taskDone_countP_isUser (l : List Nat) :
    ((l.map (fun _ => Event.taskDone)).countP isUser) = 0 := by
  induction l with
  | nil => rfl
  | cons a rest ih => simp [List.countP_cons, isUser, ih]

lemma map_taskDone_countP_isDone (l : List Nat) :
    ((l.map (fun _ => Event.taskDone)).countP isDone) = l.length := by
  induction l with
  | nil => rfl
  | cons a rest ih =>
    simp only [List.map_cons, List.countP_cons, ih, List.length_cons]
    simp [isDone]

lemma cleanUpPorts_eq (cfg : Config) :
    cleanUpPorts cfg
      = (List.range cfg.total_instances).map
          (fun k => cfg.tor_base_port + k * 10) := by
  unfold cleanUpPorts pyRange
  congr 1
  congr 1
  omega

lemma seedQueue_eq (n : Nat) : seedQueue n = List.range n := by
  unfold seedQueue pyRange
  have h : (n - 0 + 1 - 1) / 1 = n := by omega
  rw [h]
  simp

lemma filterMap_seedIdx_map_seed (l : List Nat) :
    (l.map RunEvent.seed).filterMap seedIdx = l := by
  induction l with
  | nil => rfl
  | cons a rest ih => simp [List.filterMap_cons, seedIdx, ih]

lemma filterMap_seedIdx_map_spawn (l : List Nat) :
    (l.map RunEvent.spawn).filterMap seedIdx = [] := by
  induction l with
  | nil => rfl
  | cons a rest ih => simp [List.filterMap_cons, seedIdx, ih]

lemma countP_isSpawn_map_seed (l : List Nat) :
    (l.map RunEvent.seed).countP isSpawn = 0 := by
  induction l with
  | nil => rfl
  | cons a rest ih => simp [List.countP_cons, isSpawn, ih]

lemma countP_isSpawn_map_spawn (l : List Nat) :
    (l.map RunEvent.spawn).countP isSpawn = l.length := by
  induction l with
  | nil => rfl
  | cons a rest ih => simp [List.countP_cons, isSpawn, ih]

lemma runSched_three_steps (a : Nat) (q : List Nat) (ws : List Nat) :
    runSched (PoolState.mk (a :: q) [WPhase.loopHead]) (0 :: 0 :: 0 :: ws)
      = runSched (PoolState.mk q [WPhase.loopHead]) ws := rfl

lemma retryFrom_count_allfail (cfg : Config) (env : Env) (a i : Nat)
    (hu : ∀ n, env.userFails a i n = true)
    (hAuth : ∀ p, env.authFails p = false) :
    ∀ fuel attempt,
      ((retryFrom cfg env a i attempt fuel).1).countP isUser = fuel
      ∧ ((retryFrom cfg env a i attempt fuel).1).countP isRotate = fuel := by
  intro fuel
  induction fuel with
  | zero => intro attempt; simp [retryFrom]
  | succ m ih =>
    intro attempt
    have hih := ih (attempt + 1)
    cases ho : env.isOpen (controlPort cfg i) <;>
      simp [retryFrom, execute_function, rotate_tor_ip, hu, ho, hAuth,
        List.countP_cons, List.countP_append, isUser, isRotate,
        hih.1, hih.2]

/-- C1 is false on the code: with a user function that raises on every
invocation (and a reachable, authenticating control port), the retry loop
of thread_manager performs 5 execution attempts and invokes rotate_tor_ip
5 times, not 4 — rotate_tor_ip is called inside the except handler of every
failed attempt, including the final one. -/
theorem torsel_C1_counterexample :
    ((retryLoop defaultConfig envAllFail 0 0).1).countP isUser = 5
    ∧ ((retryLoop defaultConfig envAllFail 0 0).1).countP isRotate = 5
    ∧ ¬ ((retryLoop defaultConfig envAllFail 0 0).1).countP isRotate = 4 := by
  decide

/-- C1 (amended): for every configuration, action and instance, if the user
function raises on every invocation and rotation itself never raises, the
retry loop performs exactly 5 execution attempts and invokes the
identity-rotation operation exactly 5 times — one rotation after each
failed attempt, including the final one — and then abandons the action
without surfacing an error. -/
theorem torsel_C1_retry_bound (cfg : Config) (env : Env) (a i : Nat)
    (hu : ∀ n, env.userFails a i n = true)
    (hAuth : ∀ p, env.authFails p = false) :
    ((retryLoop cfg env a i).1).countP isUser = 5
    ∧ ((retryLoop cfg env a i).1).countP isRotate = 5
    ∧ (retryLoop cfg env a i).2 = false := by
  have h := retryFrom_count_allfail cfg env a i hu hAuth 5 0
  have h2 := retryFrom_no_raise cfg env a i hAuth 5 0
  exact ⟨h.1, h.2, h2⟩

/-- Witness for torsel_C1_retry_bound at a concrete always-raising
environment. -/
theorem torsel_C1_witness :
    ((retryLoop defaultConfig envAllFail 3 3).1).countP isUser = 5
    ∧ ((retryLoop defaultConfig envAllFail 3 3).1).countP isRotate = 5
    ∧ (retryLoop defaultConfig envAllFail 3 3).2 = false :=
  torsel_C1_retry_bound defaultConfig envAllFail 3 3
    (fun _ => rfl) (fun _ => rfl)

/-- C2 is false on the code: when the user function raises,
execute_function propagates the exception before reaching driver.quit()
(there is no try/finally), so the session is never disposed on the failure
path. -/
theorem torsel_C2_counterexample :
    (execute_function envAllFail 7 3 0).2 = true
    ∧ Event.quitSession 3 ∉ (execute_function envAllFail 7 3 0).1 := by
  decide

/-- C2 (amended): execute_function builds exactly one session and invokes
the user function exactly once, but disposes (quits) the session only when
the user function returns normally; when it raises, the exception
propagates first and no quitSession event occurs. -/
theorem torsel_C2_scoped_disposal (env : Env) (a i att : Nat) :
    ((execute_function env a i att).1).countP (isQuit)
        = (if (execute_function env a i att).2 then 0 else 1)
    ∧ ((execute_function env a i att).1).countP isBuild = 1
    ∧ ((execute_function env a i att).1).countP isUser = 1 := by
  cases h : env.userFails a i att <;>
    simp [execute_function, h, List.countP_cons, isQuit, isBuild, isUser]

/-- Witness for torsel_C2_scoped_disposal at a concrete environment. -/
theorem torsel_C2_witness :
    ((execute_function envOk 0 0 0).1).countP (isQuit)
        = (if (execute_function envOk 0 0 0).2 then 0 else 1)
    ∧ ((execute_function envOk 0 0 0).1).countP isBuild = 1
    ∧ ((execute_function envOk 0 0 0).1).countP isUser = 1 :=
  torsel_C2_scoped_disposal envOk 0 0 0

/-- C3 is false on the code: an authentication error raised by the stem
controller inside rotate_tor_ip — called from the except handler of the
retry loop — is not caught by anything in thread_manager, so it escapes the
worker loop: the worker terminates abnormally (controlError) and the next
queued action (index 1) is left unprocessed rather than being continued
to. -/
theorem torsel_C3_counterexample :
    (thread_manager defaultConfig envAuthBroken none [0, 1] 0).2
      = ([1], some Exc.controlError) := by
  decide

/-- C3 (amended): exceptions raised by the user function inside
execute_function are caught by the retry loop and stay local to the one
action being processed — provided identity rotation itself never raises,
no exception escapes the worker loop and the worker drains the entire
queue (for any stop callback); but a control-channel failure during
rotation is not contained (see the counterexample). -/
theorem torsel_C3_local_failures (cfg : Config) (env : Env)
    (stop : Option (Nat → Bool)) (q : List Nat) (polls : Nat)
    (hT : 1 ≤ cfg.total_instances)
    (hAuth : ∀ p, env.authFails p = false) :
    (thread_manager cfg env stop q polls).2.2 = none
    ∧ (thread_manager cfg env stop q polls).2.1 = [] := by
  have hp : ∀ b, (processAction cfg env b).2 = none := fun b =>
    processAction_exc_none cfg env b (by omega) hAuth
  induction q generalizing polls with
  | nil => cases stop <;> simp [thread_manager]
  | cons a rest ih =>
    cases stop with
    | none =>
      simp only [thread_manager, hp a]
      exact ih (polls + 1)
    | some f =>
      cases hf : f polls <;> simp only [thread_manager, hp a, hf] <;>
        first
          | exact ih (polls + 1)
          | simp

/-- Witness for torsel_C3_local_failures at a concrete always-raising (but
rotation-safe) environment. -/
theorem torsel_C3_witness :
    (thread_manager defaultConfig envAllFail none [0, 1, 2] 0).2.2 = none
    ∧ (thread_manager defaultConfig envAllFail none [0, 1, 2] 0).2.1 = [] :=
  torsel_C3_local_failures defaultConfig envAllFail none [0, 1, 2] 0
    (by decide) (fun _ => rfl)

/-- C4 is false on the code: clean_up probes and frees the port
socksPort + 101 (lines 67-68), not controlBase + index*10 as
create_tor_instance derives it (line 89). For a configuration with
tor_control_base_port = 9000 and tor_base_port = 9050, instance 0's control
port 9000 is reported open by the Port Probe yet is never freed (only 9050
and 9151 are), so the reset step does not use the same derivation as
instance creation. -/
theorem torsel_C4_counterexample :
    controlPort cfgShiftedControl 0 ∉ clean_up cfgShiftedControl (fun _ => true)
    ∧ socksPort cfgShiftedControl 0 ∈ clean_up cfgShiftedControl (fun _ => true)
    ∧ 0 < cfgShiftedControl.total_instances := by
  decide

/-- C4 (amended): for every pool configuration and instance index, the
reset step derives the instance's SOCKS port exactly as instance creation
does (socksBase + index*10) and forcibly frees it when the Port Probe
reports it open; the second freed port is socksPort + 101, which equals
instance creation's control port derivation (controlBase + index*10)
exactly when controlBase = socksBase + 101 — as in the default
configuration — and in that case an open control port is freed as well. -/
theorem torsel_C4_reset_ports (cfg : Config) (isOpen : Nat → Bool) (i : Nat)
    (hi : i < cfg.total_instances) :
    socksPort cfg i ∈ cleanUpPorts cfg
    ∧ (isOpen (socksPort cfg i) = true →
        socksPort cfg i ∈ clean_up cfg isOpen)
    ∧ (cfg.tor_control_base_port = cfg.tor_base_port + 101 →
        isOpen (controlPort cfg i) = true →
        controlPort cfg i ∈ clean_up cfg isOpen) := by
  have hmem : socksPort cfg i ∈ cleanUpPorts cfg := by
    rw [cleanUpPorts_eq]
    exact List.mem_map.mpr ⟨i, List.mem_range.mpr hi, rfl⟩
  refine ⟨hmem, ?_, ?_⟩
  · intro hop
    unfold clean_up
    refine List.mem_flatMap.mpr ⟨socksPort cfg i, hmem, ?_⟩
    simp [hop]
  · intro hctl hop
    unfold clean_up
    refine List.mem_flatMap.mpr ⟨socksPort cfg i, hmem, ?_⟩
    have h101 : controlPort cfg i = socksPort cfg i + 101 := by
      unfold controlPort socksPort
      omega
    rw [h101] at hop ⊢
    simp [hop]

/-- Witness for torsel_C4_reset_ports at the default configuration with
every port reported open. -/
theorem torsel_C4_witness :
    socksPort defaultConfig 0 ∈ cleanUpPorts defaultConfig
    ∧ ((fun _ => true : Nat → Bool) (socksPort defaultConfig 0) = true →
        socksPort defaultConfig 0 ∈ clean_up defaultConfig (fun _ => true))
    ∧ (defaultConfig.tor_control_base_port
          = defaultConfig.tor_base_port + 101 →
        (fun _ => true : Nat → Bool) (controlPort defaultConfig 0) = true →
        controlPort defaultConfig 0 ∈ clean_up defaultConfig (fun _ => true)) :=
  torsel_C4_reset_ports defaultConfig (fun _ => true) 0 (by decide)

/-- C5 is false on the code: with one queued action and two workers, the
schedule in which both workers pass the queue.empty() check before either
calls queue.get() leaves worker 1 inside the blocking queue.get() on an
empty queue — a state from which it has no step — so not every worker
exits its loop once the queue is empty, and run's join never returns. -/
theorem torsel_C5_counterexample :
    runSched (PoolState.mk [0] [WPhase.loopHead, WPhase.loopHead])
        [0, 1, 0, 0, 0]
      = PoolState.mk [] [WPhase.done, WPhase.getting]
    ∧ stepWorker WPhase.getting [] = none := by
  decide

/-- C5 (amended): a worker that observes the queue empty at its loop-head
check exits its loop, and with a single worker the loop always terminates —
for every initial queue, running the lone worker 3*n+1 steps drains the
queue and ends in the done phase, so run returns; but with two or more
workers, the race between the emptiness check and the blocking dequeue can
leave a worker blocked forever (see the counterexample). -/
theorem torsel_C5_single_worker_drains (q : List Nat) :
    runSched (PoolState.mk q [WPhase.loopHead])
        (List.replicate (3 * q.length + 1) 0)
      = PoolState.mk [] [WPhase.done] := by
  induction q with
  | nil => rfl
  | cons a rest ih =>
    have hlen : 3 * (a :: rest).length + 1 = 3 * rest.length + 1 + 3 := by
      simp only [List.length_cons]
      omega
    have hrep : List.replicate (3 * (a :: rest).length + 1) (0 : Nat)
        = 0 :: 0 :: 0 :: List.replicate (3 * rest.length + 1) 0 := by
      rw [hlen,
        show 3 * rest.length + 1 + 3 = (((3 * rest.length + 1) + 1) + 1) + 1
          from by omega,
        List.replicate_succ, List.replicate_succ, List.replicate_succ]
    rw [hrep, runSched_three_steps]
    exact ih

/-- Witness for torsel_C5_single_worker_drains at a concrete queue. -/
theorem torsel_C5_witness :
    runSched (PoolState.mk [7] [WPhase.loopHead])
        (List.replicate (3 * [7].length + 1) 0)
      = PoolState.mk [] [WPhase.done] :=
  torsel_C5_single_worker_drains [7]

/-- C6 (confirmed, under the assumptions that the pool has at least one
instance and that identity rotation never raises, so the worker is not
killed mid-queue): in a full single-worker run over actions 0..N-1, every
executed user call respects the assignment instance = action mod
totalInstances; the processing of action a emits a createInstance event for
instance i exactly when a = i and a < totalInstances (so creation is
triggered by the unique action below totalInstances mapping to the
instance and never repeated later); and over the whole run instance i is
created exactly once when i < min totalInstances N and never otherwise. -/
theorem torsel_C6_round_robin (cfg : Config) (env : Env) (N i a : Nat)
    (hT : 1 ≤ cfg.total_instances)
    (hAuth : ∀ p, env.authFails p = false) :
    ((thread_manager cfg env none (List.range N) 0).1).all
        (assignedOk cfg) = true
    ∧ ((processAction cfg env a).1).countP (isCreate i)
        = (if a = i ∧ a < cfg.total_instances then 1 else 0)
    ∧ ((thread_manager cfg env none (List.range N) 0).1).countP (isCreate i)
        = (if i < min cfg.total_instances N then 1 else 0) := by
  have hT0 : cfg.total_instances ≠ 0 := by omega
  have htrace := thread_manager_none_trace cfg env hT0 hAuth (List.range N) 0
  refine ⟨?_, processAction_countP_isCreate cfg env a i hT0, ?_⟩
  · rw [htrace]
    exact flatMap_all _ _ _
      (fun b hb => processAction_all_assignedOk cfg env b hT0)
  · rw [htrace, flatMap_countP]
    have hmap : (List.range N).map
          (fun b => ((processAction cfg env b).1).countP (isCreate i))
        = (List.range N).map
            (fun b => if b = i ∧ b < cfg.total_instances then 1 else 0) := by
      apply List.map_congr_left
      intro b hb
      exact processAction_countP_isCreate cfg env b i hT0
    rw [hmap, sum_indicator_range]
    have hmin : (i < cfg.total_instances ∧ i < N)
        ↔ i < min cfg.total_instances N := by
      omega
    simp only [hmin]

/-- Witness for torsel_C6_round_robin at the default configuration with a
well-behaved environment. -/
theorem torsel_C6_witness :
    ((thread_manager defaultConfig envOk none (List.range 3) 0).1).all
        (assignedOk defaultConfig) = true
    ∧ ((processAction defaultConfig envOk 1).1).countP (isCreate 1)
        = (if 1 = 1 ∧ 1 < defaultConfig.total_instances then 1 else 0)
    ∧ ((thread_manager defaultConfig envOk none (List.range 3) 0).1).countP
          (isCreate 1)
        = (if 1 < min defaultConfig.total_instances 3 then 1 else 0) :=
  torsel_C6_round_robin defaultConfig envOk 3 1 1 (by decide) (fun _ => rfl)

/-- C7 (confirmed, under the assumptions that the pool has at least one
instance and that identity rotation never raises): if the stop-check
callback returns true at its first poll — made after the worker completes
its first action — the worker drains every remaining queued item, the
final queue is empty, no exception escapes, the user function is invoked
only by the first action's processing, and every item is marked done: the
executed one plus one taskDone per drained item. -/
theorem torsel_C7_stop_drain (cfg : Config) (env : Env) (f : Nat → Bool)
    (a : Nat) (rest : List Nat)
    (hT : 1 ≤ cfg.total_instances)
    (hAuth : ∀ p, env.authFails p = false)
    (hf : f 0 = true) :
    (thread_manager cfg env (some f) (a :: rest) 0).2.1 = []
    ∧ (thread_manager cfg env (some f) (a :: rest) 0).2.2 = none
    ∧ ((thread_manager cfg env (some f) (a :: rest) 0).1).countP isUser
        = ((processAction cfg env a).1).countP isUser
    ∧ ((thread_manager cfg env (some f) (a :: rest) 0).1).countP isDone
        = 1 + rest.length := by
  have hT0 : cfg.total_instances ≠ 0 := by omega
  have hnone := processAction_exc_none cfg env a hT0 hAuth
  have hstep : thread_manager cfg env (some f) (a :: rest) 0
      = ((processAction cfg env a).1 ++ rest.map (fun _ => Event.taskDone),
          [], none) := by
    simp [thread_manager, hnone, hf]
  rw [hstep]
  refine ⟨rfl, rfl, ?_, ?_⟩
  · rw [List.countP_append, map_taskDone_countP_isUser]
    omega
  · rw [List.countP_append, map_taskDone_countP_isDone,
      processAction_countP_isDone cfg env a hT0 hAuth]

/-- Witness for torsel_C7_stop_drain at a stop callback that is already
true at the first poll. -/
theorem torsel_C7_witness :
    (thread_manager defaultConfig envOk (some (fun _ => true))
        [0, 1, 2, 3] 0).2.1 = []
    ∧ (thread_manager defaultConfig envOk (some (fun _ => true))
        [0, 1, 2, 3] 0).2.2 = none
    ∧ ((thread_manager defaultConfig envOk (some (fun _ => true))
        [0, 1, 2, 3] 0).1).countP isUser
        = ((processAction defaultConfig envOk 0).1).countP isUser
    ∧ ((thread_manager defaultConfig envOk (some (fun _ => true))
        [0, 1, 2, 3] 0).1).countP isDone = 1 + [1, 2, 3].length :=
  torsel_C7_stop_drain defaultConfig envOk (fun _ => true) 0 [1, 2, 3]
    (by decide) (fun _ => rfl) rfl

/-- C8 is false on the code: port uniqueness does not hold for every pool
configuration — with tor_base_port = 9050 and tor_control_base_port = 9060,
instance 1's SOCKS port equals instance 0's control port (both 9060), and
both instances are within the pool. -/
theorem torsel_C8_counterexample :
    socksPort cfgCollide 1 = controlPort cfgCollide 0
    ∧ 1 < cfgCollide.total_instances := by
  decide

/-- C8 (amended): for every pool configuration the derived SOCKS ports are
pairwise distinct and the derived control ports are pairwise distinct
(stride 10 per index); the cross-family disjointness — no SOCKS port equals
any control port — holds whenever the two base ports differ modulo 10, as
they do in the default configuration (9050 vs 9151), but not for every
configuration. -/
theorem torsel_C8_port_uniqueness (cfg : Config) (i j k l : Nat)
    (hij : i ≠ j) :
    socksPort cfg i ≠ socksPort cfg j
    ∧ controlPort cfg i ≠ controlPort cfg j
    ∧ (cfg.tor_base_port % 10 ≠ cfg.tor_control_base_port % 10 →
        socksPort cfg k ≠ controlPort cfg l) := by
  unfold socksPort controlPort
  refine ⟨by omega, by omega, fun hmod => by omega⟩

/-- Witness for torsel_C8_port_uniqueness at the default configuration. -/
theorem torsel_C8_witness :
    socksPort defaultConfig 0 ≠ socksPort defaultConfig 1
    ∧ controlPort defaultConfig 0 ≠ controlPort defaultConfig 1
    ∧ (defaultConfig.tor_base_port % 10
          ≠ defaultConfig.tor_control_base_port % 10 →
        socksPort defaultConfig 2 ≠ controlPort defaultConfig 3) :=
  torsel_C8_port_uniqueness defaultConfig 0 1 2 3 (by decide)

/-- C9 (confirmed): the trace of run opens with the Environment Reset
(clean_up), the queue is seeded with exactly the action indices 0..N-1 in
ascending order, exactly min(numActions, max_threads) worker threads are
started, and the join over all workers is the last thing run does before
returning. -/
theorem torsel_C9_run_structure (cfg : Config) (n : Nat) :
    (run cfg n).head? = some RunEvent.cleanup
    ∧ (run cfg n).filterMap seedIdx = List.range n
    ∧ (run cfg n).countP isSpawn = min n cfg.max_threads
    ∧ (run cfg n).getLast? = some RunEvent.joined := by
  refine ⟨rfl, ?_, ?_, ?_⟩
  · unfold run
    rw [List.filterMap_append, List.filterMap_append, List.filterMap_append]
    rw [seedQueue_eq, filterMap_seedIdx_map_seed, filterMap_seedIdx_map_spawn]
    simp [seedIdx]
  · unfold run
    rw [List.countP_append, List.countP_append, List.countP_append]
    rw [countP_isSpawn_map_seed, countP_isSpawn_map_spawn]
    simp [isSpawn, List.countP_cons]
  · have hlast : run cfg n
        = ([RunEvent.cleanup]
            ++ (seedQueue n).map RunEvent.seed
            ++ (List.range (min n cfg.max_threads)).map RunEvent.spawn)
          ++ [RunEvent.joined] := by
      simp [run, List.append_assoc]
    rw [hlast, List.getLast?_concat]

/-- Witness for torsel_C9_run_structure at a concrete configuration. -/
theorem torsel_C9_witness :
    (run defaultConfig 7).head? = some RunEvent.cleanup
    ∧ (run defaultConfig 7).filterMap seedIdx = List.range 7
    ∧ (run defaultConfig 7).countP isSpawn = min 7 defaultConfig.max_threads
    ∧ (run defaultConfig 7).getLast? = some RunEvent.joined :=
  torsel_C9_run_structure defaultConfig 7

/-- C10 (confirmed): with total_instances = 0 and at least one action, the
worker's first loop iteration evaluates action_num % total_instances with a
zero divisor, a ZeroDivisionError; the division-by-zero branch is reachable
whenever the unstated precondition totalInstances >= 1 is violated, and it
escapes the worker loop. -/
theorem torsel_C10_zero_instances (cfg : Config) (env : Env) (n : Nat)
    (h0 : cfg.total_instances = 0) (hn : 1 ≤ n) :
    (thread_manager cfg env none (List.range n) 0).2.2
      = some Exc.zeroDivision := by
  obtain ⟨m, rfl⟩ : ∃ m, n = m + 1 := ⟨n - 1, by omega⟩
  rw [List.range_succ_eq_map]
  simp [thread_manager, processAction, h0]

/-- Witness for torsel_C10_zero_instances at a concrete zero-instance
configuration. -/
theorem torsel_C10_witness :
    (thread_manager cfgZero envOk none (List.range 1) 0).2.2
      = some Exc.zeroDivision :=
  torsel_C10_zero_instances cfgZero envOk 1 rfl (by decide)

end Torsel
